import Mathlib

/-!
Shallow embedding of the mirror oracle contract
(`src/mirror_oracle/src/contract.rs`).

The contract maintains three kinds of records in a key-value store:
a singleton `Config`, an `Asset` per registered symbol and a `Price`
record per registered symbol.  The handler functions of `contract.rs`
(`init`, `try_update_config`, `try_register_asset`, `try_feed_price`)
are embedded as explicit state-passing functions: each one takes the
store and returns the store as mutated so far together with either a
response value or a typed error, exactly mirroring the sequence of
reads, checks and writes of the Rust code.

The storage layer (`crate::state`) and message types (`crate::msg`)
are declared by `contract.rs` but their source is not in the
repository snapshot; those definitions are modelled from the spec
(and pinned by the contract's own tests where the tests observe their
behaviour), as marked on each such definition.

Address canonicalization (`deps.api.canonical_address`) is a host
collaborator; it is modelled as a total function `api : String →
String` passed into every handler, since the core only ever compares
canonicalized identities.
-/

namespace MirrorOracle

/-- The cosmwasm `Decimal` is a non-negative fixed-point value held as an
integer count of 10^-18 units; we embed it as that count. -/
abbrev Decimal := Nat

/-- One whole unit of a `Decimal`: 10^18 fractional atoms. -/
def DECIMAL_FRACTIONAL : Nat := 1000000000000000000

/-- `Decimal::zero()`. -/
def Decimal.zero : Decimal := 0

/-- `Decimal::one()`. -/
def Decimal.one : Decimal := DECIMAL_FRACTIONAL

/-- Rendering of a `Decimal` by the host library (`to_string`): the whole
part, followed, when the fractional part is non-zero, by a point and the
18-digit zero-padded fractional part with trailing zeros removed. -/
def Decimal.render (d : Decimal) : String :=
  let whole := d / DECIMAL_FRACTIONAL
  let frac := d % DECIMAL_FRACTIONAL
  if frac = 0 then toString whole
  else
    let fracStr := toString frac
    let padded := String.mk (List.replicate (18 - fracStr.length) '0') ++ fracStr
    let trimmed := String.mk ((padded.data.reverse.dropWhile (fun c => c = '0')).reverse)
    toString whole ++ "." ++ trimmed

/-- The error taxonomy of the host standard library (`StdError`), restricted
to the variants this contract can produce. -/
inductive StdError where
  | unauthorized
  | notFound (kind : String)
  | genericErr (msg : String)
deriving DecidableEq, Repr

/-- Is the error of the `NotFound` kind? -/
def StdError.isNotFoundKind : StdError → Bool
  | .notFound _ => true
  | _ => false

/-- Modelled from the spec (source file `state.rs` is not in the snapshot):
the singleton configuration record `{ owner: Identity, base_denom: string }`,
with `owner` stored in canonical form. -/
structure Config where
  owner : String
  base_denom : String
deriving DecidableEq, Repr

/-- Modelled from the spec (source file `state.rs` is not in the snapshot):
an asset registration `{ symbol, feeder, token }`, identities canonical. -/
structure Asset where
  symbol : String
  feeder : String
  token : String
deriving DecidableEq, Repr

/-- Modelled from the spec (source file `state.rs` is not in the snapshot):
a price record `{ price, price_multiplier, last_update_time }`. -/
structure Price where
  price : Decimal
  price_multiplier : Decimal
  last_update_time : Nat
deriving DecidableEq, Repr

/-- The persistent key-value store, with the three distinctly namespaced
key families of the spec: the fixed `Config` slot and the per-symbol
`Asset` and `Price` buckets. -/
structure Store where
  config : Option Config
  assets : String → Option Asset
  prices : String → Option Price

/-- The invocation context: caller identity (external form, as in
`env.message.sender`) and the block timestamp (`env.block.time`). -/
structure Env where
  sender : String
  blockTime : Nat
deriving DecidableEq, Repr

/-- A handler response: submessages, log attributes and optional data
payload (`HandleResponse`). -/
structure HandleResponse where
  messages : List String
  log : List (String × String)
  data : Option String
deriving DecidableEq, Repr

/-- `HandleResponse::default()`. -/
def HandleResponse.default : HandleResponse :=
  { messages := [], log := [], data := none }

/-- `InitResponse::default()`. -/
structure InitResponse where
  messages : List String
deriving DecidableEq, Repr

/-- Modelled from the spec (source file `state.rs` is not in the snapshot):
`read_config` loads the singleton Config, failing with `NotFound` when it
has never been written. -/
def read_config (store : Store) : Except StdError Config :=
  match store.config with
  | some c => .ok c
  | none => .error (.notFound "Config")

/-- Modelled from the spec (source file `state.rs` is not in the snapshot):
`store_config` writes the singleton Config slot. -/
def store_config (store : Store) (c : Config) : Store :=
  { store with config := some c }

/-- Modelled from the spec (source file `state.rs` is not in the snapshot):
`read_asset` loads the Asset bucket at `symbol`; the error for a missing
asset is pinned by the in-source test (`contract.rs`, test `feed_price`)
as `GenericErr` with message `no asset data stored`. -/
def read_asset (store : Store) (symbol : String) : Except StdError Asset :=
  match store.assets symbol with
  | some a => .ok a
  | none => .error (.genericErr "no asset data stored")

/-- Modelled from the spec (source file `state.rs` is not in the snapshot):
`store_asset` writes the Asset bucket at `symbol`. -/
def store_asset (store : Store) (symbol : String) (a : Asset) : Store :=
  { store with assets := fun k => if k = symbol then some a else store.assets k }

/-- Modelled from the spec (source file `state.rs` is not in the snapshot):
`read_price` loads the Price bucket at `symbol`, failing when absent. -/
def read_price (store : Store) (symbol : String) : Except StdError Price :=
  match store.prices symbol with
  | some p => .ok p
  | none => .error (.genericErr "no price data stored")

/-- Modelled from the spec (source file `state.rs` is not in the snapshot):
`store_price` writes the Price bucket at `symbol`. -/
def store_price (store : Store) (symbol : String) (p : Price) : Store :=
  { store with prices := fun k => if k = symbol then some p else store.prices k }

/-- `init`: canonicalizes the supplied owner and unconditionally writes the
Config singleton. -/
def init (api : String → String) (store : Store)
    (msgOwner : String) (baseDenom : String) :
    Store × Except StdError InitResponse :=
  (store_config store { owner := api msgOwner, base_denom := baseDenom },
   .ok { messages := [] })

/-- `try_update_config`: reads Config, rejects a caller whose canonical
identity differs from the stored owner, optionally replaces the owner with
the canonicalized new owner, and writes Config back. -/
def try_update_config (api : String → String) (store : Store) (env : Env)
    (owner : Option String) : Store × Except StdError HandleResponse :=
  match read_config store with
  | .error e => (store, .error e)
  | .ok config =>
    if api env.sender ≠ config.owner then
      (store, .error .unauthorized)
    else
      let config2 : Config :=
        match owner with
        | some o => { config with owner := api o }
        | none => config
      (store_config store config2, .ok HandleResponse.default)

/-- `try_register_asset`: rejects the call when an Asset already exists for
the symbol (with `StdError::unauthorized()`), otherwise writes the new
Asset and a fresh zero Price record; the caller identity in `env` is
unused. -/
def try_register_asset (api : String → String) (store : Store) (_env : Env)
    (symbol : String) (feeder : String) (token : String) :
    Store × Except StdError HandleResponse :=
  if (read_asset store symbol).isOk then
    (store, .error .unauthorized)
  else
    let store2 := store_asset store symbol
      { symbol := symbol, feeder := api feeder, token := api token }
    let store3 := store_price store2 symbol
      { price := Decimal.zero, price_multiplier := Decimal.one,
        last_update_time := 0 }
    (store3, .ok HandleResponse.default)

/-- `try_feed_price`: resolves the Asset for the symbol, rejects a caller
whose canonical identity differs from the asset's feeder, then reads the
Price record, overwrites its timestamp and price, overwrites the multiplier
only when one is supplied, writes the record back and returns a response
logging the action and the rendered price. -/
def try_feed_price (api : String → String) (store : Store) (env : Env)
    (symbol : String) (price : Decimal) (price_multiplier : Option Decimal) :
    Store × Except StdError HandleResponse :=
  match read_asset store symbol with
  | .error e => (store, .error e)
  | .ok asset =>
    if api env.sender ≠ asset.feeder then
      (store, .error .unauthorized)
    else
      match read_price store symbol with
      | .error e => (store, .error e)
      | .ok state0 =>
        let state1 : Price :=
          { state0 with last_update_time := env.blockTime, price := price }
        let state2 : Price :=
          match price_multiplier with
          | some m => { state1 with price_multiplier := m }
          | none => state1
        (store_price store symbol state2,
         .ok { messages := [],
               log := [("action", "price_feed"), ("price", Decimal.render price)],
               data := none })

/-- A feed-price invocation failed with the `NotFound` error kind. -/
def failsWithNotFound (r : Store × Except StdError HandleResponse) : Prop :=
  ∃ k, r.snd = .error (.notFound k)

/-- `isOk` on a success. -/
@[simp] theorem isOk_ok {α : Type} (a : α) :
    (Except.ok a : Except StdError α).isOk = true := rfl

/-- `isOk` on a failure. -/
@[simp] theorem isOk_error {α : Type} (e : StdError) :
    (Except.error e : Except StdError α).isOk = false := rfl

/-! Concrete fixtures, matching the values of the contract's own tests. -/

/-- The identity canonicalization of the mock host: the identity map. -/
def apiId : String → String := id

/-- A concrete Config. -/
def cfg0 : Config := { owner := "owner0000", base_denom := "base0000" }

/-- A concrete registered Asset. -/
def asset0 : Asset :=
  { symbol := "mAPPL", feeder := "addr0000", token := "asset0000" }

/-- The fresh Price record written at registration. -/
def price0 : Price :=
  { price := Decimal.zero, price_multiplier := Decimal.one, last_update_time := 0 }

/-- An empty store. -/
def emptyStore : Store :=
  { config := none, assets := fun _ => none, prices := fun _ => none }

/-- A store holding the Config and one registered asset with its fresh
price record. -/
def store1 : Store :=
  { config := some cfg0,
    assets := fun k => if k = "mAPPL" then some asset0 else none,
    prices := fun k => if k = "mAPPL" then some price0 else none }

/-- Invocation context of the owner. -/
def envOwner : Env := { sender := "owner0000", blockTime := 1571797419 }

/-- Invocation context of the registered feeder. -/
def envFeeder : Env := { sender := "addr0000", blockTime := 1571797419 }

/-- Invocation context of a third party. -/
def envOther : Env := { sender := "addr0001", blockTime := 1571797419 }

/-- The decimal value 1.2. -/
def dec12 : Decimal := 1200000000000000000

/-! Claim theorems. -/

/-- Claim C1: for every registered symbol `s` (with its paired price
record), `feed_price` succeeds iff the caller's canonical identity equals
the feeder stored in the Asset for `s`; any other caller gets
`Unauthorized` and the stored price record for `s` is unchanged. -/
theorem feed_price_feeder_gate (api : String → String) (store : Store)
    (env : Env) (s : String) (price : Decimal) (pm : Option Decimal)
    (asset : Asset) (hA : store.assets s = some asset)
    (hP : (store.prices s).isSome = true) :
    ((try_feed_price api store env s price pm).snd.isOk = true
        ↔ api env.sender = asset.feeder)
    ∧ (api env.sender ≠ asset.feeder →
        (try_feed_price api store env s price pm).snd = .error .unauthorized
        ∧ (try_feed_price api store env s price pm).fst.prices s
            = store.prices s) := by
  obtain ⟨p, hp⟩ := Option.isSome_iff_exists.mp hP
  constructor
  · constructor
    · intro hok
      by_contra hne
      simp [try_feed_price, read_asset, hA, hne] at hok
    · intro heq
      simp [try_feed_price, read_asset, hA, heq, read_price, hp]
  · intro hne
    simp [try_feed_price, read_asset, hA, hne]

/-- Witness for C1 at a concrete unauthorized caller. -/
theorem feed_price_feeder_gate_witness :
    store1.assets "mAPPL" = some asset0
    ∧ (store1.prices "mAPPL").isSome = true
    ∧ (((try_feed_price apiId store1 envOther "mAPPL" dec12 none).snd.isOk = true
          ↔ apiId envOther.sender = asset0.feeder)
        ∧ (apiId envOther.sender ≠ asset0.feeder →
            (try_feed_price apiId store1 envOther "mAPPL" dec12 none).snd
                = .error .unauthorized
            ∧ (try_feed_price apiId store1 envOther "mAPPL" dec12 none).fst.prices "mAPPL"
                = store1.prices "mAPPL")) :=
  ⟨by decide, by decide,
   feed_price_feeder_gate apiId store1 envOther "mAPPL" dec12 none asset0
     (by decide) (by decide)⟩

/-- Claim C2: when an Asset already exists for `s`, a further
`register_asset` for `s` fails with `Unauthorized` and leaves the stored
Asset and price record for `s` unchanged. -/
theorem register_asset_duplicate (api : String → String) (store : Store)
    (env : Env) (s : String) (feeder : String) (token : String) (a : Asset)
    (hA : store.assets s = some a) :
    (try_register_asset api store env s feeder token).snd
        = .error .unauthorized
    ∧ (try_register_asset api store env s feeder token).fst.assets s = some a
    ∧ (try_register_asset api store env s feeder token).fst.prices s
        = store.prices s := by
  simp [try_register_asset, read_asset, hA]

/-- Witness for C2 at a concrete duplicate registration. -/
theorem register_asset_duplicate_witness :
    store1.assets "mAPPL" = some asset0
    ∧ ((try_register_asset apiId store1 envOther "mAPPL" "addr0001" "asset0001").snd
          = .error .unauthorized
        ∧ (try_register_asset apiId store1 envOther "mAPPL" "addr0001" "asset0001").fst.assets "mAPPL"
            = some asset0
        ∧ (try_register_asset apiId store1 envOther "mAPPL" "addr0001" "asset0001").fst.prices "mAPPL"
            = store1.prices "mAPPL") :=
  ⟨by decide,
   register_asset_duplicate apiId store1 envOther "mAPPL" "addr0001" "asset0001"
     asset0 (by decide)⟩

/-- Claim C3: immediately after a successful `register_asset`, reading the
price for `s` gives `{price 0, multiplier 1, time 0}` and reading the asset
gives the registered identities; both were written by the one call. -/
theorem register_asset_pairing (api : String → String) (store : Store)
    (env : Env) (s : String) (feeder : String) (token : String)
    (hA : store.assets s = none) :
    (try_register_asset api store env s feeder token).snd
        = .ok HandleResponse.default
    ∧ read_price (try_register_asset api store env s feeder token).fst s
        = .ok { price := Decimal.zero, price_multiplier := Decimal.one,
                last_update_time := 0 }
    ∧ read_asset (try_register_asset api store env s feeder token).fst s
        = .ok { symbol := s, feeder := api feeder, token := api token } := by
  simp [try_register_asset, read_asset, read_price, hA, store_asset, store_price]

/-- Witness for C3 at a concrete fresh registration. -/
theorem register_asset_pairing_witness :
    emptyStore.assets "mAPPL" = none
    ∧ ((try_register_asset apiId emptyStore envOther "mAPPL" "addr0000" "asset0000").snd
          = .ok HandleResponse.default
        ∧ read_price (try_register_asset apiId emptyStore envOther "mAPPL" "addr0000" "asset0000").fst "mAPPL"
            = .ok { price := Decimal.zero, price_multiplier := Decimal.one,
                    last_update_time := 0 }
        ∧ read_asset (try_register_asset apiId emptyStore envOther "mAPPL" "addr0000" "asset0000").fst "mAPPL"
            = .ok { symbol := "mAPPL", feeder := apiId "addr0000",
                    token := apiId "asset0000" }) :=
  ⟨by decide,
   register_asset_pairing apiId emptyStore envOther "mAPPL" "addr0000" "asset0000"
     (by decide)⟩

/-- Claim C4: `update_config` succeeds iff the caller's canonical identity
equals the stored owner; any other caller gets `Unauthorized` and the
stored Config is unchanged. -/
theorem update_config_auth (api : String → String) (store : Store)
    (env : Env) (newOwner : Option String) (cfg : Config)
    (hC : store.config = some cfg) :
    ((try_update_config api store env newOwner).snd.isOk = true
        ↔ api env.sender = cfg.owner)
    ∧ (api env.sender ≠ cfg.owner →
        (try_update_config api store env newOwner).snd = .error .unauthorized
        ∧ (try_update_config api store env newOwner).fst.config = some cfg) := by
  constructor
  · constructor
    · intro hok
      by_contra hne
      simp [try_update_config, read_config, hC, hne] at hok
    · intro heq
      simp [try_update_config, read_config, hC, heq]
  · intro hne
    simp [try_update_config, read_config, hC, hne]

/-- Witness for C4 at a concrete unauthorized caller. -/
theorem update_config_auth_witness :
    store1.config = some cfg0
    ∧ (((try_update_config apiId store1 envOther none).snd.isOk = true
          ↔ apiId envOther.sender = cfg0.owner)
        ∧ (apiId envOther.sender ≠ cfg0.owner →
            (try_update_config apiId store1 envOther none).snd
                = .error .unauthorized
            ∧ (try_update_config apiId store1 envOther none).fst.config
                = some cfg0)) :=
  ⟨by decide,
   update_config_auth apiId store1 envOther none cfg0 (by decide)⟩

/-- Claim C5 counterexample: feeding a price for an unregistered symbol
does not fail with the `NotFound` error kind; on the empty store the error
is `GenericErr "no asset data stored"`, the encoding the contract's own
test asserts. -/
theorem feed_price_unregistered_counterexample :
    (try_feed_price apiId emptyStore envFeeder "mAPPL" dec12 none).snd
        = .error (.genericErr "no asset data stored")
    ∧ ¬ failsWithNotFound
        (try_feed_price apiId emptyStore envFeeder "mAPPL" dec12 none) := by
  constructor
  · rfl
  · rintro ⟨k, hk⟩
    simp [try_feed_price, read_asset, emptyStore] at hk

/-- Claim C5 as amended: for a symbol with no registered Asset,
`feed_price` fails with the generic error `no asset data stored` (the
source's encoding of the entity-absent case) and writes nothing to the
store. -/
theorem feed_price_unregistered (api : String → String) (store : Store)
    (env : Env) (s : String) (price : Decimal) (pm : Option Decimal)
    (hA : store.assets s = none) :
    (try_feed_price api store env s price pm).snd
        = .error (.genericErr "no asset data stored")
    ∧ (try_feed_price api store env s price pm).fst = store := by
  simp [try_feed_price, read_asset, hA]

/-- Witness for the amended C5 at a concrete unregistered symbol. -/
theorem feed_price_unregistered_witness :
    emptyStore.assets "uusd" = none
    ∧ ((try_feed_price apiId emptyStore envFeeder "uusd" dec12 none).snd
          = .error (.genericErr "no asset data stored")
        ∧ (try_feed_price apiId emptyStore envFeeder "uusd" dec12 none).fst
            = emptyStore) :=
  ⟨by decide,
   feed_price_unregistered apiId emptyStore envFeeder "uusd" dec12 none
     (by decide)⟩

/-- Claim C6: a successful `feed_price` by the authorized feeder overwrites
the record's price with the supplied price and its timestamp with the
context's block time, and its response carries no submessages, no data and
exactly the log entries `action = price_feed` and the rendered new
price. -/
theorem feed_price_success_effects (api : String → String) (store : Store)
    (env : Env) (s : String) (price : Decimal) (pm : Option Decimal)
    (asset : Asset) (p : Price) (hA : store.assets s = some asset)
    (hAuth : api env.sender = asset.feeder) (hP : store.prices s = some p) :
    (try_feed_price api store env s price pm).snd
        = .ok { messages := [],
                log := [("action", "price_feed"), ("price", Decimal.render price)],
                data := none }
    ∧ ((try_feed_price api store env s price pm).fst.prices s).map Price.price
        = some price
    ∧ ((try_feed_price api store env s price pm).fst.prices s).map Price.last_update_time
        = some env.blockTime := by
  cases pm with
  | none =>
    simp [try_feed_price, read_asset, read_price, hA, hAuth, hP, store_price]
  | some m =>
    simp [try_feed_price, read_asset, read_price, hA, hAuth, hP, store_price]

/-- Witness for C6 at a concrete authorized feed. -/
theorem feed_price_success_effects_witness :
    store1.assets "mAPPL" = some asset0
    ∧ apiId envFeeder.sender = asset0.feeder
    ∧ store1.prices "mAPPL" = some price0
    ∧ ((try_feed_price apiId store1 envFeeder "mAPPL" dec12 none).snd
          = .ok { messages := [],
                  log := [("action", "price_feed"), ("price", Decimal.render dec12)],
                  data := none }
        ∧ ((try_feed_price apiId store1 envFeeder "mAPPL" dec12 none).fst.prices "mAPPL").map Price.price
            = some dec12
        ∧ ((try_feed_price apiId store1 envFeeder "mAPPL" dec12 none).fst.prices "mAPPL").map Price.last_update_time
            = some envFeeder.blockTime) :=
  ⟨by decide, by decide, by decide,
   feed_price_success_effects apiId store1 envFeeder "mAPPL" dec12 none asset0
     price0 (by decide) (by decide) (by decide)⟩

/-- Claim C7: a successful feed with no multiplier supplied leaves the
stored multiplier unchanged; supplying one overwrites it. -/
theorem feed_price_multiplier_carry (api : String → String) (store : Store)
    (env : Env) (s : String) (price : Decimal) (asset : Asset) (p : Price)
    (hA : store.assets s = some asset) (hAuth : api env.sender = asset.feeder)
    (hP : store.prices s = some p) :
    ((try_feed_price api store env s price none).snd.isOk = true
      ∧ ((try_feed_price api store env s price none).fst.prices s).map Price.price_multiplier
          = some p.price_multiplier)
    ∧ ∀ m : Decimal,
        (try_feed_price api store env s price (some m)).snd.isOk = true
        ∧ ((try_feed_price api store env s price (some m)).fst.prices s).map Price.price_multiplier
            = some m := by
  refine ⟨⟨?_, ?_⟩, fun m => ⟨?_, ?_⟩⟩ <;>
    simp [try_feed_price, read_asset, read_price, hA, hAuth, hP, store_price]

/-- Witness for C7 at a concrete authorized feed. -/
theorem feed_price_multiplier_carry_witness :
    store1.assets "mAPPL" = some asset0
    ∧ apiId envFeeder.sender = asset0.feeder
    ∧ store1.prices "mAPPL" = some price0
    ∧ (((try_feed_price apiId store1 envFeeder "mAPPL" dec12 none).snd.isOk = true
          ∧ ((try_feed_price apiId store1 envFeeder "mAPPL" dec12 none).fst.prices "mAPPL").map Price.price_multiplier
              = some price0.price_multiplier)
        ∧ ∀ m : Decimal,
            (try_feed_price apiId store1 envFeeder "mAPPL" dec12 (some m)).snd.isOk = true
            ∧ ((try_feed_price apiId store1 envFeeder "mAPPL" dec12 (some m)).fst.prices "mAPPL").map Price.price_multiplier
                = some m) :=
  ⟨by decide, by decide, by decide,
   feed_price_multiplier_carry apiId store1 envFeeder "mAPPL" dec12 asset0
     price0 (by decide) (by decide) (by decide)⟩

/-- Claim C8: an `update_config` call by the current owner with no new
owner supplied succeeds and leaves the stored Config (hence its owner)
equal to its value before the call. -/
theorem update_config_noop (api : String → String) (store : Store)
    (env : Env) (cfg : Config) (hC : store.config = some cfg)
    (hAuth : api env.sender = cfg.owner) :
    (try_update_config api store env none).snd = .ok HandleResponse.default
    ∧ (try_update_config api store env none).fst.config = some cfg := by
  simp [try_update_config, read_config, store_config, hC, hAuth]

/-- Witness for C8 at the concrete owner. -/
theorem update_config_noop_witness :
    store1.config = some cfg0
    ∧ apiId envOwner.sender = cfg0.owner
    ∧ ((try_update_config apiId store1 envOwner none).snd
          = .ok HandleResponse.default
        ∧ (try_update_config apiId store1 envOwner none).fst.config
            = some cfg0) :=
  ⟨by decide, by decide,
   update_config_noop apiId store1 envOwner cfg0 (by decide) (by decide)⟩

/-- Claim C9: `register_asset` performs no owner check: it succeeds
whenever no Asset exists for the symbol, and the invocation context (hence
the caller identity) never affects its outcome. -/
theorem register_asset_no_owner_check (api : String → String) (store : Store)
    (env1 env2 : Env) (s : String) (feeder : String) (token : String)
    (hA : store.assets s = none) :
    (try_register_asset api store env1 s feeder token).snd.isOk = true
    ∧ try_register_asset api store env1 s feeder token
        = try_register_asset api store env2 s feeder token := by
  refine ⟨?_, rfl⟩
  simp [try_register_asset, read_asset, hA]

/-- Witness for C9 at a concrete non-owner caller and two distinct
contexts. -/
theorem register_asset_no_owner_check_witness :
    emptyStore.assets "mAPPL" = none
    ∧ ((try_register_asset apiId emptyStore envOther "mAPPL" "addr0000" "asset0000").snd.isOk = true
        ∧ try_register_asset apiId emptyStore envOther "mAPPL" "addr0000" "asset0000"
            = try_register_asset apiId emptyStore envOwner "mAPPL" "addr0000" "asset0000") :=
  ⟨by decide,
   register_asset_no_owner_check apiId emptyStore envOther envOwner "mAPPL"
     "addr0000" "asset0000" (by decide)⟩

/-- Claim C10: `init` performs no already-initialized check: invoked on a
store already holding a Config it succeeds and unconditionally overwrites
the Config with the canonicalized supplied owner and base denomination. -/
theorem init_overwrites (api : String → String) (store : Store)
    (cfgOld : Config) (msgOwner : String) (baseDenom : String)
    (hC : store.config = some cfgOld) :
    (init api store msgOwner baseDenom).snd = .ok { messages := [] }
    ∧ (init api store msgOwner baseDenom).fst.config
        = some { owner := api msgOwner, base_denom := baseDenom } := by
  simp [init, store_config]

/-- Witness for C10 at a concrete already-initialized store. -/
theorem init_overwrites_witness :
    store1.config = some cfg0
    ∧ ((init apiId store1 "owner0001" "base0001").snd = .ok { messages := [] }
        ∧ (init apiId store1 "owner0001" "base0001").fst.config
            = some { owner := apiId "owner0001", base_denom := "base0001" }) :=
  ⟨by decide,
   init_overwrites apiId store1 cfg0 "owner0001" "base0001" (by decide)⟩

end MirrorOracle
